import Mathlib

/-!
Verification of the snapshot-resolution and query-execution logic of
`src/app.py` (an Iceberg/Spark query front-end).

The Python functions are shallowly embedded:
* a Spark DataFrame of table rows becomes `IceDF`: a column schema
  together with a `List Row`; column references (`col("snapshot_id")`,
  `partitionBy("id")`, `col("timestamp")`) raise when the named column is
  absent from the schema, so the snapshot-filter step and the
  deduplication step can fail like the source's can;
* the table-history relation becomes `List HistRow`, wrapped in
  `Except String` to model the history query possibly raising;
* `orderBy(col, ascending=False)` becomes the stable descending
  insertion sort `sortDesc`;
* the window-function deduplication (`Window.partitionBy("id")
  .orderBy(col("timestamp").desc())`, `row_number`, filter `== 1`,
  `drop`) becomes `dedupById`;
* Streamlit side effects (`st.error`, `st.info`, `st.dataframe`,
  `progress_bar.progress`) become an explicit `List UIEvent` log;
* the Spark session becomes a record of oracles `SparkSession` whose
  `sql`/`toPandas` fields return `Except String _` to model engine
  exceptions.
-/

/-- A row of the table-history relation (`<table>.history`), with a
snapshot identifier and a commit-time column, as assumed by
`filter_latest_data` (src/app.py lines 30-34). -/
structure HistRow where
  snapshot_id : Int
  timestamp : Int
deriving DecidableEq, Repr

/-- A data row of the Iceberg DataFrame: primary key `id`, version
`timestamp`, `snapshot_id` tag and one payload column `v`
(src/app.py lines 37-44 and the spec scenario). -/
structure Row where
  id : String
  timestamp : Int
  snapshot_id : Int
  v : String
deriving DecidableEq, Repr

/-- Insert `x` into a list kept sorted descending by `key`; the element
goes before the first strictly smaller key, so insertion is stable. -/
def insertDesc (key : α → Int) (x : α) : List α → List α
  | [] => [x]
  | y :: ys => if key y ≤ key x then x :: y :: ys else y :: insertDesc key x ys

/-- Stable insertion sort, descending by `key`: the embedding of
`DataFrame.orderBy(c, ascending=False)`. -/
def sortDesc (key : α → Int) : List α → List α
  | [] => []
  | x :: xs => insertDesc key x (sortDesc key xs)

theorem mem_insertDesc (key : α → Int) (x a : α) (l : List α) :
    a ∈ insertDesc key x l ↔ a = x ∨ a ∈ l := by
  induction l with
  | nil => simp [insertDesc]
  | cons y ys ih =>
    by_cases h : key y ≤ key x
    · simp [insertDesc, h]
    · simp [insertDesc, h, ih]
      tauto

theorem mem_sortDesc (key : α → Int) (a : α) (l : List α) :
    a ∈ sortDesc key l ↔ a ∈ l := by
  induction l with
  | nil => simp [sortDesc]
  | cons x xs ih => simp [sortDesc, mem_insertDesc, ih]

theorem insertDesc_pairwise (key : α → Int) (x : α) (l : List α)
    (hl : l.Pairwise (fun a b => key b ≤ key a)) :
    (insertDesc key x l).Pairwise (fun a b => key b ≤ key a) := by
  induction l with
  | nil => simp [insertDesc]
  | cons y ys ih =>
    rcases List.pairwise_cons.mp hl with ⟨hy, hys⟩
    by_cases h : key y ≤ key x
    · simp only [insertDesc, if_pos h]
      refine List.pairwise_cons.mpr ⟨?_, hl⟩
      intro z hz
      rcases List.mem_cons.mp hz with rfl | hz
      · exact h
      · exact le_trans (hy z hz) h
    · simp only [insertDesc, if_neg h]
      refine List.pairwise_cons.mpr ⟨?_, ih hys⟩
      intro z hz
      rcases (mem_insertDesc key x z ys).mp hz with rfl | hz
      · exact le_of_lt (lt_of_not_ge h)
      · exact hy z hz

theorem sortDesc_pairwise (key : α → Int) (l : List α) :
    (sortDesc key l).Pairwise (fun a b => key b ≤ key a) := by
  induction l with
  | nil => simp [sortDesc]
  | cons x xs ih => exact insertDesc_pairwise key x _ ih

/-- The head of the descending sort bounds every element of the list. -/
theorem sortDesc_head_max (key : α → Int) (l : List α) (h : α) (t : List α)
    (hsort : sortDesc key l = h :: t) :
    ∀ x ∈ l, key x ≤ key h := by
  intro x hx
  have hx' : x ∈ sortDesc key l := (mem_sortDesc key x l).mpr hx
  rw [hsort] at hx'
  rcases List.mem_cons.mp hx' with rfl | hx'
  · exact le_refl _
  · have := sortDesc_pairwise key l
    rw [hsort] at this
    exact (List.pairwise_cons.mp this).1 x hx'

theorem sortDesc_ne_nil (key : α → Int) (l : List α) (hne : l ≠ []) :
    sortDesc key l ≠ [] := by
  intro hcontra
  rcases List.exists_mem_of_ne_nil l hne with ⟨x, hx⟩
  have : x ∈ sortDesc key l := (mem_sortDesc key x l).mpr hx
  rw [hcontra] at this
  exact absurd this (List.not_mem_nil x)

/-- Embedding of src/app.py lines 33-34: order the history rows by the
commit-time column descending, take the first row (`limit(1)` followed by
`collect()[0]`); `none` models the `IndexError` raised on empty history. -/
def resolveLatestSnapshot (history_df : List HistRow) : Option HistRow :=
  (sortDesc HistRow.timestamp history_df).head?

/-- C1: For every table whose history relation contains at least one
entry, the latest-snapshot selection of `filter_latest_data` (ordering
history rows by commit time descending and taking the first row) yields a
history row with the maximum commit timestamp. -/
theorem latest_snapshot_is_max_commit (l : List HistRow) (hne : l ≠ []) :
    ∃ h, resolveLatestSnapshot l = some h ∧ h ∈ l ∧
      ∀ h' ∈ l, h'.timestamp ≤ h.timestamp := by
  have hnil := sortDesc_ne_nil HistRow.timestamp l hne
  rcases hs : sortDesc HistRow.timestamp l with _ | ⟨h, t⟩
  · exact absurd hs hnil
  · refine ⟨h, ?_, ?_, ?_⟩
    · simp [resolveLatestSnapshot, hs]
    · have : h ∈ sortDesc HistRow.timestamp l := by
        rw [hs]; exact List.mem_cons_self h t
      exact (mem_sortDesc HistRow.timestamp h l).mp this
    · exact sortDesc_head_max HistRow.timestamp l h t hs

theorem latest_snapshot_is_max_commit_witness :
    ∃ h, resolveLatestSnapshot [⟨1, 100⟩, ⟨2, 200⟩] = some h ∧
      h ∈ [HistRow.mk 1 100, HistRow.mk 2 200] ∧
      ∀ h' ∈ [HistRow.mk 1 100, HistRow.mk 2 200], h'.timestamp ≤ h.timestamp :=
  latest_snapshot_is_max_commit [⟨1, 100⟩, ⟨2, 200⟩] (by decide)

/-- Attach a distinct position to each row, starting at `n`: physical row
identity inside the DataFrame (two equal rows are distinct physical rows). -/
def enumerate : List α → Nat → List (Nat × α)
  | [], _ => []
  | r :: rs, n => (n, r) :: enumerate rs (n + 1)

theorem enumerate_fst_ge (l : List α) (n : Nat) :
    ∀ p ∈ enumerate l n, n ≤ p.1 := by
  induction l generalizing n with
  | nil => intro p hp; simp [enumerate] at hp
  | cons r rs ih =>
    intro p hp
    rcases List.mem_cons.mp hp with rfl | hp
    · exact le_refl n
    · exact le_trans (Nat.le_succ n) (ih (n + 1) p hp)

theorem enumerate_pairwise (l : List α) (n : Nat) :
    (enumerate l n).Pairwise (fun p q => p.1 ≠ q.1) := by
  induction l generalizing n with
  | nil => simp [enumerate]
  | cons r rs ih =>
    refine List.pairwise_cons.mpr ⟨?_, ih (n + 1)⟩
    intro q hq
    have := enumerate_fst_ge rs (n + 1) q hq
    omega

theorem enumerate_snd_mem (l : List α) (n : Nat) (p : Nat × α)
    (hp : p ∈ enumerate l n) : p.2 ∈ l := by
  induction l generalizing n with
  | nil => simp [enumerate] at hp
  | cons r rs ih =>
    rcases List.mem_cons.mp hp with rfl | hp
    · exact List.mem_cons_self r rs
    · exact List.mem_cons_of_mem r (ih (n + 1) hp)

theorem mem_enumerate_of_mem (l : List α) (n : Nat) (r : α) (hr : r ∈ l) :
    ∃ i, (i, r) ∈ enumerate l n := by
  induction l generalizing n with
  | nil => simp at hr
  | cons x xs ih =>
    rcases List.mem_cons.mp hr with rfl | hr
    · exact ⟨n, List.mem_cons_self _ _⟩
    · rcases ih (n + 1) hr with ⟨i, hi⟩
      exact ⟨i, List.mem_cons_of_mem _ hi⟩

/-- Position of the first occurrence of `x` (0-based); the list length if
`x` is absent. -/
def idxOf [DecidableEq α] (x : α) : List α → Nat
  | [] => 0
  | y :: ys => if y = x then 0 else idxOf x ys + 1

theorem idxOf_cons_eq_zero_iff [DecidableEq α] (x y : α) (ys : List α) :
    idxOf x (y :: ys) = 0 ↔ y = x := by
  by_cases h : y = x <;> simp [idxOf, h]

/-- The window partition of physical row `p`: all physical rows sharing
its `id` column (`Window.partitionBy("id")`, src/app.py line 41). -/
def partitionOf (indexed : List (Nat × Row)) (p : Nat × Row) : List (Nat × Row) :=
  indexed.filter (fun q => q.2.id == p.2.id)

/-- `row_number().over(window_spec)` for physical row `p`: 1 plus its
position in its partition sorted by the `timestamp` column descending
(src/app.py lines 41-42). -/
def rowNumber (indexed : List (Nat × Row)) (p : Nat × Row) : Nat :=
  idxOf p (sortDesc (fun q => q.2.timestamp) (partitionOf indexed p)) + 1

/-- Embedding of src/app.py lines 41-44: attach `row_number` over the
window partitioned by `id` and ordered by `timestamp` descending, keep
rows with `row_number == 1`, drop the `row_number` column. -/
def dedupById (rows : List Row) : List Row :=
  (((enumerate rows 0).map (fun p => (p, rowNumber (enumerate rows 0) p))).filter
      (fun s => s.2 == 1)).map (fun s => s.1.2)

theorem self_mem_partitionOf (indexed : List (Nat × Row)) (p : Nat × Row)
    (hp : p ∈ indexed) : p ∈ partitionOf indexed p := by
  simp [partitionOf, List.mem_filter, hp]

theorem rowNumber_eq_one_iff (indexed : List (Nat × Row)) (p : Nat × Row)
    (hp : p ∈ indexed) :
    rowNumber indexed p = 1 ↔
      (sortDesc (fun q => q.2.timestamp) (partitionOf indexed p)).head? = some p := by
  have hmem : p ∈ sortDesc (fun q => q.2.timestamp) (partitionOf indexed p) :=
    (mem_sortDesc _ p _).mpr (self_mem_partitionOf indexed p hp)
  rcases hs : sortDesc (fun q => q.2.timestamp) (partitionOf indexed p) with _ | ⟨q, qs⟩
  · rw [hs] at hmem; exact absurd hmem (List.not_mem_nil p)
  · rw [rowNumber, hs]
    constructor
    · intro h1
      have h0 : idxOf p (q :: qs) = 0 := by omega
      have := (idxOf_cons_eq_zero_iff p q qs).mp h0
      simp [this]
    · intro hhead
      have hq : q = p := by simpa using hhead
      have := (idxOf_cons_eq_zero_iff p q qs).mpr hq
      omega

theorem partitionOf_congr (indexed : List (Nat × Row)) (p p' : Nat × Row)
    (hid : p.2.id = p'.2.id) : partitionOf indexed p = partitionOf indexed p' := by
  unfold partitionOf
  rw [hid]

/-- Two distinct physical rows with the same `id` cannot both get
`row_number = 1`: they share one partition, whose sorted head is unique. -/
theorem rowNumber_one_unique (indexed : List (Nat × Row)) (p q : Nat × Row)
    (hp : p ∈ indexed) (hq : q ∈ indexed) (hid : p.2.id = q.2.id)
    (h1p : rowNumber indexed p = 1) (h1q : rowNumber indexed q = 1) : p = q := by
  have hheadp := (rowNumber_eq_one_iff indexed p hp).mp h1p
  have hheadq := (rowNumber_eq_one_iff indexed q hq).mp h1q
  rw [partitionOf_congr indexed p q hid] at hheadp
  rw [hheadp] at hheadq
  exact Option.some_injective _ hheadq

theorem dedupById_pairwise (rows : List Row) :
    (dedupById rows).Pairwise (fun r s => r.id ≠ s.id) := by
  unfold dedupById
  have hQ : (enumerate rows 0).Pairwise (fun p q =>
      rowNumber (enumerate rows 0) p = 1 → rowNumber (enumerate rows 0) q = 1 →
        p.2.id ≠ q.2.id) := by
    refine (enumerate_pairwise rows 0).imp_of_mem ?_
    intro p q hp hq hne h1p h1q hid
    exact hne (congrArg Prod.fst (rowNumber_one_unique _ p q hp hq hid h1p h1q))
  have hmap : ((enumerate rows 0).map
      (fun p => (p, rowNumber (enumerate rows 0) p))).Pairwise
      (fun s t => s.2 = 1 → t.2 = 1 → s.1.2.id ≠ t.1.2.id) := by
    rw [List.pairwise_map]
    exact hQ
  have hfil : (((enumerate rows 0).map
      (fun p => (p, rowNumber (enumerate rows 0) p))).filter
      (fun s => s.2 == 1)).Pairwise
      (fun s t => s.2 = 1 → t.2 = 1 → s.1.2.id ≠ t.1.2.id) :=
    List.Pairwise.sublist (List.filter_sublist _) hmap
  rw [List.pairwise_map]
  refine hfil.imp_of_mem ?_
  intro s t hs ht h
  have hs1 : s.2 = 1 := by
    have := (List.mem_filter.mp hs).2
    simpa using this
  have ht1 : t.2 = 1 := by
    have := (List.mem_filter.mp ht).2
    simpa using this
  exact h hs1 ht1

theorem mem_dedupById (rows : List Row) (r : Row) (hr : r ∈ dedupById rows) :
    ∃ p, p ∈ enumerate rows 0 ∧ p.2 = r ∧ rowNumber (enumerate rows 0) p = 1 := by
  unfold dedupById at hr
  rcases List.mem_map.mp hr with ⟨s, hsS, hsr⟩
  rcases List.mem_filter.mp hsS with ⟨hsmap, hcond⟩
  rcases List.mem_map.mp hsmap with ⟨p, hpidx, hps⟩
  subst hps
  refine ⟨p, hpidx, hsr, ?_⟩
  simpa using hcond

theorem dedupById_subset (rows : List Row) (r : Row) (hr : r ∈ dedupById rows) :
    r ∈ rows := by
  rcases mem_dedupById rows r hr with ⟨p, hpidx, hpr, _⟩
  have := enumerate_snd_mem rows 0 p hpidx
  rwa [hpr] at this

/-- Every survivor of the dedup has the maximum `timestamp` among the rows
sharing its `id`. -/
theorem dedupById_timestamp_max (rows : List Row) (r : Row) (hr : r ∈ dedupById rows) :
    ∀ s ∈ rows, s.id = r.id → s.timestamp ≤ r.timestamp := by
  rcases mem_dedupById rows r hr with ⟨p, hpidx, hpr, h1⟩
  have hhead := (rowNumber_eq_one_iff _ p hpidx).mp h1
  rcases hs : sortDesc (fun q => q.2.timestamp) (partitionOf (enumerate rows 0) p)
    with _ | ⟨q, qs⟩
  · rw [hs] at hhead; simp at hhead
  · rw [hs] at hhead
    have hqp : q = p := by simpa using hhead
    rw [hqp] at hs
    intro s hsmem hid
    rcases mem_enumerate_of_mem rows 0 s hsmem with ⟨j, hj⟩
    have hjpart : (j, s) ∈ partitionOf (enumerate rows 0) p := by
      simp only [partitionOf, List.mem_filter]
      refine ⟨hj, ?_⟩
      have : s.id = p.2.id := by rw [hid, hpr]
      simpa using this
    have hle := sortDesc_head_max (fun q => q.2.timestamp) _ p qs hs (j, s) hjpart
    simp only [hpr] at hle
    exact hle

/-- Streamlit side effects, recorded as an explicit event log:
`progress_bar.progress`, `st.error`, `st.info`, `st.dataframe`. -/
inductive UIEvent where
  | progress (pct : Nat)
  | error (msg : String)
  | info (msg : String)
  | table
deriving DecidableEq, Repr

/-- Row-level semantics of the snapshot filter of src/app.py line 37:
keep the rows tagged with the given snapshot identifier. -/
def snapshotFiltered (rows : List Row) (sid : Int) : List Row :=
  rows.filter (fun r => r.snapshot_id == sid)

/-- An Iceberg DataFrame: its column schema together with its rows. A
column reference in the source (`col("snapshot_id")`, `partitionBy("id")`,
`col("timestamp")`) raises an analysis exception when the named column is
absent, so the schema makes those failure modes representable. -/
structure IceDF where
  cols : List String
  rows : List Row
deriving DecidableEq, Repr

/-- src/app.py line 37: `iceberg_df.filter(col("snapshot_id") ==
latest_snapshot_id)`; raises when the `snapshot_id` column is missing. -/
def snapshotFilter (df : IceDF) (sid : Int) : Except String IceDF :=
  if "snapshot_id" ∈ df.cols then
    Except.ok ⟨df.cols, snapshotFiltered df.rows sid⟩
  else
    Except.error "cannot resolve column snapshot_id"

/-- src/app.py lines 41-44: the window deduplication (`row_number` over
`partitionBy("id").orderBy(col("timestamp").desc())`, keep rank 1, drop
the rank column); raises when the `id` or `timestamp` column is missing. -/
def dedupStep (df : IceDF) : Except String IceDF :=
  if "id" ∈ df.cols ∧ "timestamp" ∈ df.cols then
    Except.ok ⟨df.cols, dedupById df.rows⟩
  else
    Except.error "cannot resolve column id or timestamp"

/-- The `try` block of `filter_latest_data` (src/app.py lines 29-46):
history query result (an `Except`, since `spark.sql` may raise), latest
snapshot via `resolveLatestSnapshot` (erroring on empty history like
`collect()[0]`), snapshot filter, then window dedup. An error carries the
exception message together with the value of the `iceberg_df` binding at
the raise point: because line 37 reassigns `iceberg_df`, a failure of the
deduplication step leaves the snapshot-filtered frame bound, not the
original input. -/
def filterBody (iceberg_df : IceDF) (history : Except String (List HistRow)) :
    Except (String × IceDF) IceDF :=
  match history with
  | Except.error e => Except.error (e, iceberg_df)
  | Except.ok history_df =>
    match resolveLatestSnapshot history_df with
    | none => Except.error ("list index out of range", iceberg_df)
    | some latest =>
      match snapshotFilter iceberg_df latest.snapshot_id with
      | Except.error e => Except.error (e, iceberg_df)
      | Except.ok filtered_df =>
        match dedupStep filtered_df with
        | Except.error e => Except.error (e, filtered_df)
        | Except.ok out => Except.ok out

/-- Embedding of `filter_latest_data` (src/app.py lines 27-49): on any
failure inside the `try` block the exception is caught, `st.error` is
emitted, and the current `iceberg_df` binding is returned — the original
input when the failure precedes line 37, the snapshot-filtered frame when
the deduplication step fails. Returns the DataFrame together with the
emitted UI events. -/
def filter_latest_data (iceberg_df : IceDF)
    (history : Except String (List HistRow)) : IceDF × List UIEvent :=
  match filterBody iceberg_df history with
  | Except.ok out => (out, [])
  | Except.error (e, current_df) =>
      (current_df, [UIEvent.error ("Error fetching snapshot data: " ++ e)])

theorem snapshotFilter_ok_rows (df : IceDF) (sid : Int) (df2 : IceDF)
    (h : snapshotFilter df sid = Except.ok df2) :
    df2.rows = snapshotFiltered df.rows sid := by
  by_cases hc : "snapshot_id" ∈ df.cols
  · rw [snapshotFilter, if_pos hc] at h
    rw [← Except.ok.inj h]
  · rw [snapshotFilter, if_neg hc] at h
    exact absurd h (by simp)

theorem dedupStep_ok_rows (df2 out : IceDF)
    (h : dedupStep df2 = Except.ok out) : out.rows = dedupById df2.rows := by
  by_cases hc : "id" ∈ df2.cols ∧ "timestamp" ∈ df2.cols
  · rw [dedupStep, if_pos hc] at h
    rw [← Except.ok.inj h]
  · rw [dedupStep, if_neg hc] at h
    exact absurd h (by simp)

/-- A successful `try` block decomposes into its four successful steps. -/
theorem filterBody_ok (df : IceDF) (history : Except String (List HistRow))
    (out : IceDF) (hok : filterBody df history = Except.ok out) :
    ∃ history_df latest filtered_df, history = Except.ok history_df ∧
      resolveLatestSnapshot history_df = some latest ∧
      snapshotFilter df latest.snapshot_id = Except.ok filtered_df ∧
      dedupStep filtered_df = Except.ok out := by
  rcases history with e | history_df
  · exact absurd hok (by simp [filterBody])
  · rcases hres : resolveLatestSnapshot history_df with _ | latest
    · simp [filterBody, hres] at hok
    · simp only [filterBody, hres] at hok
      rcases hsf : snapshotFilter df latest.snapshot_id with e | filtered_df
      · simp [hsf] at hok
      · simp only [hsf] at hok
        rcases hds : dedupStep filtered_df with e | out'
        · simp [hds] at hok
        · simp only [hds] at hok
          exact ⟨history_df, latest, filtered_df, rfl, hres, hsf,
            by rw [hds, Except.ok.inj hok]⟩

/-- A failing `try` block left either the original input bound (failure
in steps 1-3, before the line-37 reassignment) or the snapshot-filtered
frame (failure in the deduplication step). -/
theorem filterBody_error (df : IceDF) (history : Except String (List HistRow))
    (e : String) (current_df : IceDF)
    (hfail : filterBody df history = Except.error (e, current_df)) :
    current_df = df ∨
      ∃ history_df latest, history = Except.ok history_df ∧
        resolveLatestSnapshot history_df = some latest ∧
        snapshotFilter df latest.snapshot_id = Except.ok current_df := by
  rcases history with e' | history_df
  · simp only [filterBody] at hfail
    exact Or.inl (congrArg Prod.snd (Except.error.inj hfail)).symm
  · rcases hres : resolveLatestSnapshot history_df with _ | latest
    · simp only [filterBody, hres] at hfail
      exact Or.inl (congrArg Prod.snd (Except.error.inj hfail)).symm
    · simp only [filterBody, hres] at hfail
      rcases hsf : snapshotFilter df latest.snapshot_id with e'' | filtered_df
      · simp only [hsf] at hfail
        exact Or.inl (congrArg Prod.snd (Except.error.inj hfail)).symm
      · simp only [hsf] at hfail
        rcases hds : dedupStep filtered_df with e'' | out
        · simp only [hds] at hfail
          have hcur : filtered_df = current_df :=
            congrArg Prod.snd (Except.error.inj hfail)
          exact Or.inr ⟨history_df, latest, rfl, hres, by rw [hsf, hcur]⟩
        · simp only [hds] at hfail
          exact absurd hfail (by simp)

/-- C2 counterexample: on the failure-fallback path (here: empty history,
so `collect()[0]` raises before any reassignment) `filter_latest_data`
returns the input verbatim, which contains two rows with primary key
"a". -/
theorem filter_latest_data_dup_ids_on_fallback :
    ¬ ((filter_latest_data
        ⟨["id", "timestamp", "snapshot_id", "v"],
          [Row.mk "a" 10 2 "x", Row.mk "a" 20 2 "y"]⟩
        (Except.ok [])).1.rows.Pairwise (fun r s => r.id ≠ s.id)) := by
  decide

/-- C2 (amended): whenever snapshot resolution succeeds (the `try` block
completes), the row-set returned by `filter_latest_data` contains no two
rows sharing the same primary-key value; on the failure fallback the
current, undeduplicated binding is returned and may contain duplicates. -/
theorem filter_latest_data_unique_ids (iceberg_df : IceDF)
    (history : Except String (List HistRow)) (out : IceDF)
    (hok : filterBody iceberg_df history = Except.ok out) :
    (filter_latest_data iceberg_df history).1 = out ∧
      out.rows.Pairwise (fun r s => r.id ≠ s.id) := by
  constructor
  · simp [filter_latest_data, hok]
  · rcases filterBody_ok _ _ _ hok with ⟨history_df, latest, filtered_df, _, _, _, hds⟩
    rw [dedupStep_ok_rows _ _ hds]
    exact dedupById_pairwise _

theorem filter_latest_data_unique_ids_witness :
    (filter_latest_data
        ⟨["id", "timestamp", "snapshot_id", "v"],
          [Row.mk "a" 10 2 "x", Row.mk "a" 20 2 "y"]⟩
        (Except.ok [⟨2, 200⟩])).1 =
      IceDF.mk ["id", "timestamp", "snapshot_id", "v"] [Row.mk "a" 20 2 "y"] ∧
    (IceDF.mk ["id", "timestamp", "snapshot_id", "v"]
        [Row.mk "a" 20 2 "y"]).rows.Pairwise (fun r s => r.id ≠ s.id) :=
  filter_latest_data_unique_ids _ _ _ rfl

/-- C3 counterexample: with the `id` column missing from the schema, the
deduplication step (line 42) raises AFTER line 37 reassigned
`iceberg_df`, so the except branch returns the snapshot-filtered rows —
one row where the input had two — not the input unchanged. -/
theorem filter_latest_data_dedup_failure_not_input :
    filter_latest_data
        ⟨["timestamp", "snapshot_id", "v"],
          [Row.mk "a" 10 2 "x", Row.mk "b" 20 1 "y"]⟩
        (Except.ok [⟨2, 200⟩])
      = (⟨["timestamp", "snapshot_id", "v"], [Row.mk "a" 10 2 "x"]⟩,
          [UIEvent.error
            "Error fetching snapshot data: cannot resolve column id or timestamp"]) ∧
    (filter_latest_data
        ⟨["timestamp", "snapshot_id", "v"],
          [Row.mk "a" 10 2 "x", Row.mk "b" 20 1 "y"]⟩
        (Except.ok [⟨2, 200⟩])).1.rows
      ≠ [Row.mk "a" 10 2 "x", Row.mk "b" 20 1 "y"] := by
  constructor
  · decide
  · decide

/-- C3 (amended): any failure inside the `try` block of
`filter_latest_data` is caught, reported via `st.error`, and the current
`iceberg_df` binding is returned: the unfiltered, undeduplicated input
when the failure precedes the line-37 reassignment (history query,
snapshot selection, snapshot filtering), but the snapshot-filtered,
undeduplicated rows when the deduplication step fails. -/
theorem filter_latest_data_fallback (iceberg_df : IceDF)
    (history : Except String (List HistRow)) (e : String) (current_df : IceDF)
    (hfail : filterBody iceberg_df history = Except.error (e, current_df)) :
    filter_latest_data iceberg_df history =
      (current_df, [UIEvent.error ("Error fetching snapshot data: " ++ e)]) ∧
    (current_df = iceberg_df ∨
      ∃ history_df latest, history = Except.ok history_df ∧
        resolveLatestSnapshot history_df = some latest ∧
        snapshotFilter iceberg_df latest.snapshot_id = Except.ok current_df) := by
  constructor
  · simp [filter_latest_data, hfail]
  · exact filterBody_error _ _ _ _ hfail

theorem filter_latest_data_fallback_witness :
    filter_latest_data
        ⟨["id", "timestamp", "snapshot_id", "v"], [Row.mk "a" 10 2 "x"]⟩
        (Except.ok []) =
      (⟨["id", "timestamp", "snapshot_id", "v"], [Row.mk "a" 10 2 "x"]⟩,
        [UIEvent.error
          ("Error fetching snapshot data: " ++ "list index out of range")]) ∧
    (IceDF.mk ["id", "timestamp", "snapshot_id", "v"] [Row.mk "a" 10 2 "x"] =
        IceDF.mk ["id", "timestamp", "snapshot_id", "v"] [Row.mk "a" 10 2 "x"] ∨
      ∃ history_df latest,
        (Except.ok [] : Except String (List HistRow)) = Except.ok history_df ∧
        resolveLatestSnapshot history_df = some latest ∧
        snapshotFilter
          ⟨["id", "timestamp", "snapshot_id", "v"], [Row.mk "a" 10 2 "x"]⟩
          latest.snapshot_id =
          Except.ok (IceDF.mk ["id", "timestamp", "snapshot_id", "v"]
            [Row.mk "a" 10 2 "x"])) :=
  filter_latest_data_fallback _ _ "list index out of range" _ rfl

/-- C4: whenever resolution succeeds, every row returned by
`filter_latest_data` has a timestamp greater than or equal to that of
every row sharing its primary key within the snapshot-filtered input. -/
theorem filter_latest_data_timestamp_max (iceberg_df : IceDF)
    (l : List HistRow) (latest : HistRow) (out : IceDF)
    (hres : resolveLatestSnapshot l = some latest)
    (hok : filterBody iceberg_df (Except.ok l) = Except.ok out) :
    ∀ r ∈ (filter_latest_data iceberg_df (Except.ok l)).1.rows,
      ∀ s ∈ snapshotFiltered iceberg_df.rows latest.snapshot_id,
        s.id = r.id → s.timestamp ≤ r.timestamp := by
  have h1 : (filter_latest_data iceberg_df (Except.ok l)).1 = out := by
    simp [filter_latest_data, hok]
  rw [h1]
  rcases filterBody_ok _ _ _ hok with
    ⟨history_df, latest', filtered_df, heq, hres', hsf, hds⟩
  have hl : history_df = l := (Except.ok.inj heq).symm
  rw [hl] at hres'
  have hlatest : latest' = latest := Option.some_injective _ (hres'.symm.trans hres)
  rw [hlatest] at hsf
  intro r hr s hs hid
  rw [dedupStep_ok_rows _ _ hds] at hr
  rw [← snapshotFilter_ok_rows _ _ _ hsf] at hs
  exact dedupById_timestamp_max _ r hr s hs hid

theorem filter_latest_data_timestamp_max_witness :
    resolveLatestSnapshot [⟨1, 100⟩, ⟨2, 200⟩] = some (HistRow.mk 2 200) ∧
    (Row.mk "a" 10 2 "x").timestamp ≤ (Row.mk "a" 20 2 "y").timestamp :=
  ⟨by decide,
    filter_latest_data_timestamp_max
      ⟨["id", "timestamp", "snapshot_id", "v"],
        [Row.mk "a" 10 2 "x", Row.mk "a" 20 2 "y", Row.mk "b" 5 2 "z"]⟩
      [⟨1, 100⟩, ⟨2, 200⟩] ⟨2, 200⟩
      ⟨["id", "timestamp", "snapshot_id", "v"],
        [Row.mk "a" 20 2 "y", Row.mk "b" 5 2 "z"]⟩
      (by decide) rfl
      (Row.mk "a" 20 2 "y") (by decide)
      (Row.mk "a" 10 2 "x") (by decide) (by decide)⟩

/-- C7: on the spec's concrete scenario (history with snapshots at commit
times 100 and 200; three data rows tagged with snapshot 2),
`filter_latest_data` returns exactly the rank-1 row per `id`, with the
rank column dropped and no error reported. -/
theorem filter_latest_data_scenario :
    filter_latest_data
        ⟨["id", "timestamp", "snapshot_id", "v"],
          [Row.mk "a" 10 2 "x", Row.mk "a" 20 2 "y", Row.mk "b" 5 2 "z"]⟩
        (Except.ok [⟨1, 100⟩, ⟨2, 200⟩])
      = (⟨["id", "timestamp", "snapshot_id", "v"],
          [Row.mk "a" 20 2 "y", Row.mk "b" 5 2 "z"]⟩, []) := by
  decide

/-- C9: every row returned by `filter_latest_data` — on the success path
and on every failure-fallback path alike — occurs in the input row-set:
the operation only filters, it never invents rows. -/
theorem filter_latest_data_subset (iceberg_df : IceDF)
    (history : Except String (List HistRow)) :
    ∀ r ∈ (filter_latest_data iceberg_df history).1.rows, r ∈ iceberg_df.rows := by
  intro r hr
  rcases hbody : filterBody iceberg_df history with ⟨e, current_df⟩ | out
  · rw [filter_latest_data] at hr
    simp only [hbody] at hr
    rcases filterBody_error _ _ _ _ hbody with hcur |
      ⟨history_df, latest, _, _, hsf⟩
    · rw [hcur] at hr
      exact hr
    · rw [snapshotFilter_ok_rows _ _ _ hsf] at hr
      exact List.mem_of_mem_filter hr
  · rw [filter_latest_data] at hr
    simp only [hbody] at hr
    rcases filterBody_ok _ _ _ hbody with
      ⟨history_df, latest, filtered_df, _, _, hsf, hds⟩
    rw [dedupStep_ok_rows _ _ hds] at hr
    have hrs := dedupById_subset _ r hr
    rw [snapshotFilter_ok_rows _ _ _ hsf] at hrs
    exact List.mem_of_mem_filter hrs

theorem filter_latest_data_subset_witness :
    Row.mk "a" 20 2 "y" ∈
      (IceDF.mk ["id", "timestamp", "snapshot_id", "v"]
        [Row.mk "a" 10 2 "x", Row.mk "a" 20 2 "y"]).rows :=
  filter_latest_data_subset
    ⟨["id", "timestamp", "snapshot_id", "v"],
      [Row.mk "a" 10 2 "x", Row.mk "a" 20 2 "y"]⟩
    (Except.ok [⟨2, 200⟩]) (Row.mk "a" 20 2 "y") (by decide)


/-- A lazy Spark DataFrame handle: opaque, identified by a number. -/
structure DataFrame where
  handle : Nat
deriving DecidableEq, Repr

/-- A materialized (Pandas) table: a bag of rows; `rows = []` models
`pandas_df.empty`. -/
structure PandasDF where
  rows : List (List String)
deriving DecidableEq, Repr

/-- The Spark session, as the oracle the code calls into: `sql` runs a
query text and either returns a lazy DataFrame or raises (message carried
in `Except.error`); `toPandas` materializes a DataFrame or raises. -/
structure SparkSession where
  sql : String → Except String DataFrame
  toPandas : DataFrame → Except String PandasDF

/-- Embedding of `run_query` (src/app.py lines 52-58): execute the query
text verbatim; on an engine exception return `str(e)` instead of raising.
`Sum.inl` is the DataFrame outcome, `Sum.inr` the error-text outcome. -/
def run_query (spark : SparkSession) (query : String) : Sum DataFrame String :=
  match spark.sql query with
  | Except.ok df => Sum.inl df
  | Except.error e => Sum.inr e

/-- Embedding of `execute_query` (src/app.py lines 61-88): progress 0,
run the query, progress 50; an error string is reported via `st.error`
and yields `none`; otherwise materialize; a materialization exception is
caught and reported; an empty table yields `st.info` and `none`;
otherwise progress 100 and the table. Returns the result together with
the emitted UI events. -/
def execute_query (spark : SparkSession) (query : String) :
    Option PandasDF × List UIEvent :=
  match run_query spark query with
  | Sum.inr msg =>
      (none, [UIEvent.progress 0, UIEvent.progress 50,
        UIEvent.error ("Error running query: " ++ msg)])
  | Sum.inl df =>
      match spark.toPandas df with
      | Except.error e =>
          (none, [UIEvent.progress 0, UIEvent.progress 50,
            UIEvent.error ("Error executing the query: " ++ e)])
      | Except.ok pandas_df =>
          if pandas_df.rows.isEmpty then
            (none, [UIEvent.progress 0, UIEvent.progress 50,
              UIEvent.info "No results returned for the query."])
          else
            (some pandas_df,
              [UIEvent.progress 0, UIEvent.progress 50, UIEvent.progress 100])

/-- Embedding of `display_results` (src/app.py lines 91-93): render the
grid only when the argument is not `None`. -/
def display_results (df : Option PandasDF) : List UIEvent :=
  match df with
  | some _ => [UIEvent.table]
  | none => []

/-- C5: `run_query` never raises on an engine-level SQL error: for every
session and query text it returns either the tabular result of executing
the text verbatim, or the exception's message as plain text. -/
theorem run_query_total (spark : SparkSession) (query : String) :
    (∃ df, spark.sql query = Except.ok df ∧ run_query spark query = Sum.inl df) ∨
    (∃ msg, spark.sql query = Except.error msg ∧
      run_query spark query = Sum.inr msg) := by
  rcases h : spark.sql query with e | df
  · exact Or.inr ⟨e, rfl, by rw [run_query, h]⟩
  · exact Or.inl ⟨df, rfl, by rw [run_query, h]⟩

/-- C6: a query materializing to zero rows yields an informational notice
(no error event) and `none` instead of an empty table; an engine error
during execution, or an exception during materialization, is caught,
reported as an error event, and `none` is returned. -/
theorem execute_query_empty_and_error (spark : SparkSession) (query : String) :
    (∀ df pandas_df, run_query spark query = Sum.inl df →
      spark.toPandas df = Except.ok pandas_df → pandas_df.rows = [] →
      execute_query spark query =
        (none, [UIEvent.progress 0, UIEvent.progress 50,
          UIEvent.info "No results returned for the query."])) ∧
    (∀ msg, run_query spark query = Sum.inr msg →
      execute_query spark query =
        (none, [UIEvent.progress 0, UIEvent.progress 50,
          UIEvent.error ("Error running query: " ++ msg)])) ∧
    (∀ df e, run_query spark query = Sum.inl df →
      spark.toPandas df = Except.error e →
      execute_query spark query =
        (none, [UIEvent.progress 0, UIEvent.progress 50,
          UIEvent.error ("Error executing the query: " ++ e)])) := by
  refine ⟨?_, ?_, ?_⟩
  · intro df pandas_df hrun hmat hempty
    simp [execute_query, hrun, hmat, hempty]
  · intro msg hrun
    simp [execute_query, hrun]
  · intro df e hrun hmat
    simp [execute_query, hrun, hmat]

theorem execute_query_empty_and_error_witness :
    (∀ df pandas_df,
      run_query ⟨fun _ => Except.ok ⟨0⟩, fun _ => Except.ok ⟨[]⟩⟩ "SELECT 1"
        = Sum.inl df →
      SparkSession.toPandas ⟨fun _ => Except.ok ⟨0⟩, fun _ => Except.ok ⟨[]⟩⟩ df
        = Except.ok pandas_df →
      pandas_df.rows = [] →
      execute_query ⟨fun _ => Except.ok ⟨0⟩, fun _ => Except.ok ⟨[]⟩⟩ "SELECT 1" =
        (none, [UIEvent.progress 0, UIEvent.progress 50,
          UIEvent.info "No results returned for the query."])) ∧
    (∀ msg,
      run_query ⟨fun _ => Except.ok ⟨0⟩, fun _ => Except.ok ⟨[]⟩⟩ "SELECT 1"
        = Sum.inr msg →
      execute_query ⟨fun _ => Except.ok ⟨0⟩, fun _ => Except.ok ⟨[]⟩⟩ "SELECT 1" =
        (none, [UIEvent.progress 0, UIEvent.progress 50,
          UIEvent.error ("Error running query: " ++ msg)])) ∧
    (∀ df e,
      run_query ⟨fun _ => Except.ok ⟨0⟩, fun _ => Except.ok ⟨[]⟩⟩ "SELECT 1"
        = Sum.inl df →
      SparkSession.toPandas ⟨fun _ => Except.ok ⟨0⟩, fun _ => Except.ok ⟨[]⟩⟩ df
        = Except.error e →
      execute_query ⟨fun _ => Except.ok ⟨0⟩, fun _ => Except.ok ⟨[]⟩⟩ "SELECT 1" =
        (none, [UIEvent.progress 0, UIEvent.progress 50,
          UIEvent.error ("Error executing the query: " ++ e)])) :=
  execute_query_empty_and_error ⟨fun _ => Except.ok ⟨0⟩, fun _ => Except.ok ⟨[]⟩⟩
    "SELECT 1"

/-- C8 counterexample: when the engine errors, `execute_query` reports
0% and 50% and an error, but never the 100% milestone — the claimed
0%/50%/100% sequence is not reported on every execution. -/
theorem execute_query_progress_counterexample :
    (execute_query ⟨fun _ => Except.error "boom", fun _ => Except.error "boom"⟩
        "SELECT 1").2
      = [UIEvent.progress 0, UIEvent.progress 50,
          UIEvent.error "Error running query: boom"] ∧
    UIEvent.progress 100 ∉
      (execute_query ⟨fun _ => Except.error "boom", fun _ => Except.error "boom"⟩
        "SELECT 1").2 := by
  constructor
  · rfl
  · decide

/-- C8 (amended): every execution reports 0% and then 50% after raw
execution; the 100% milestone after materialization is reported exactly
when the query succeeds with a nonempty materialized result — on an
engine error, a materialization exception, or an empty result no 100%
milestone is emitted. -/
theorem execute_query_progress (spark : SparkSession) (query : String) :
    ∃ rest, (execute_query spark query).2 =
        UIEvent.progress 0 :: UIEvent.progress 50 :: rest ∧
      ((execute_query spark query).1 ≠ none → rest = [UIEvent.progress 100]) ∧
      ((execute_query spark query).1 = none →
        ∀ n, UIEvent.progress n ∉ rest) := by
  rcases hrun : run_query spark query with df | msg
  · rcases hmat : spark.toPandas df with e | pandas_df
    · refine ⟨[UIEvent.error ("Error executing the query: " ++ e)], ?_, ?_, ?_⟩
      · simp [execute_query, hrun, hmat]
      · intro h
        simp [execute_query, hrun, hmat] at h
      · intro _ n
        simp
    · by_cases hempty : pandas_df.rows.isEmpty
      · refine ⟨[UIEvent.info "No results returned for the query."], ?_, ?_, ?_⟩
        · simp [execute_query, hrun, hmat, hempty]
        · intro h
          simp [execute_query, hrun, hmat, hempty] at h
        · intro _ n
          simp
      · refine ⟨[UIEvent.progress 100], ?_, ?_, ?_⟩
        · simp [execute_query, hrun, hmat, hempty]
        · intro _
          rfl
        · intro h
          simp [execute_query, hrun, hmat, hempty] at h
  · refine ⟨[UIEvent.error ("Error running query: " ++ msg)], ?_, ?_, ?_⟩
    · simp [execute_query, hrun]
    · intro h
      simp [execute_query, hrun] at h
    · intro _ n
      simp

theorem execute_query_progress_witness :
    ∃ rest, (execute_query
        ⟨fun _ => Except.error "boom", fun _ => Except.error "boom"⟩
        "SELECT 1").2 =
        UIEvent.progress 0 :: UIEvent.progress 50 :: rest ∧
      ((execute_query
          ⟨fun _ => Except.error "boom", fun _ => Except.error "boom"⟩
          "SELECT 1").1 ≠ none → rest = [UIEvent.progress 100]) ∧
      ((execute_query
          ⟨fun _ => Except.error "boom", fun _ => Except.error "boom"⟩
          "SELECT 1").1 = none → ∀ n, UIEvent.progress n ∉ rest) :=
  execute_query_progress
    ⟨fun _ => Except.error "boom", fun _ => Except.error "boom"⟩ "SELECT 1"

/-- C10: `display_results` renders a tabular grid if and only if its
argument is non-null; on `none` it performs no rendering at all. -/
theorem display_results_iff_nonnull (df : Option PandasDF) :
    (df = none → display_results df = []) ∧
    (∀ pandas_df, df = some pandas_df → display_results df = [UIEvent.table]) := by
  constructor
  · intro h
    rw [h, display_results]
  · intro pandas_df h
    rw [h, display_results]

theorem display_results_iff_nonnull_witness :
    ((none : Option PandasDF) = none → display_results none = []) ∧
    (∀ pandas_df, (none : Option PandasDF) = some pandas_df →
      display_results none = [UIEvent.table]) :=
  display_results_iff_nonnull none
